import Mathlib

/-!
Verification of the batch-inferencing notebook
"10 - Create a Batch Inferencing Service".

The notebook's own logic is shallowly embedded here:
the inference entry script `batch_diabetes.py` (`init` and `run`),
the batch-data file generation loop, the try/except steps around
cluster provisioning and dataset registration, the colon-delimited
result parsing, the REST invocation, and the top-level cell order.
External SDK objects (the sklearn model, the datastore, the compute
target, the HTTP layer) are parameters supplied by the environment.
-/

namespace BatchInference

/-- An sklearn-style estimator as loaded by `joblib.load`: the estimator
itself is external to the repository, so it is modelled by its per-row
prediction function; `predict` applies it to every row of a 2-d input,
returning one prediction per input row (the sklearn contract). `V` is the
scalar type of feature values, `P` the type of predictions. -/
structure SkModel (V P : Type) where
  predictRow : List V → P

/-- `model.predict(rows)`: one prediction per input row. -/
def SkModel.predict {V P : Type} (m : SkModel V P) (rows : List (List V)) : List P :=
  rows.map m.predictRow

/-- `os.path.basename`: the part of the path after the last `/`
(computed on the character list: the longest `/`-free suffix). -/
def basename (p : String) : String :=
  String.mk ((p.data.reverse.takeWhile (fun c => c ≠ '/')).reverse)

/-- The body of the loop in `run` of `batch_diabetes.py` for one file `f`:
`data = np.genfromtxt(f, delimiter=',')` is modelled by the environment
function `readData` giving the comma-delimited values of the file;
`data.reshape(1, -1)` turns them into the single-row matrix `[readData f]`;
`prediction = model.predict(...)`, and the result string is
`"{}: {}".format(os.path.basename(f), prediction[0])`, with `showP`
modelling Python's `str` on a prediction. -/
def resultString {V P : Type} (m : SkModel V P) (showP : P → String)
    (readData : String → List V) (f : String) : String :=
  basename f ++ ": " ++ showP ((m.predict [readData f]).head (by simp [SkModel.predict]))

/-- `run(mini_batch)` of `batch_diabetes.py`: builds `resultList` by
appending one result string per file of the mini-batch, in order. -/
def run {V P : Type} (m : SkModel V P) (showP : P → String)
    (readData : String → List V) (mini_batch : List String) : List String :=
  mini_batch.map (resultString m showP readData)

/-- Instrumented trace of one `run` call: the results, the files passed to
`np.genfromtxt` (in order), and the number of `model.predict` calls. -/
structure RunTrace where
  results : List String
  filesRead : List String
  predictCalls : Nat
deriving DecidableEq

/-- `run` with its effects recorded: each loop iteration reads one file and
makes one `model.predict` call. -/
def runTrace {V P : Type} (m : SkModel V P) (showP : P → String)
    (readData : String → List V) : List String → RunTrace
  | [] => ⟨[], [], 0⟩
  | f :: rest =>
      let t := runTrace m showP readData rest
      ⟨resultString m showP readData f :: t.results, f :: t.filesRead, t.predictCalls + 1⟩

/-- State of the entry script process: the `global model` variable,
`none` until `init` has run. -/
structure EntryState (V P : Type) where
  model : Option (SkModel V P)

/-- `init()` of `batch_diabetes.py`:
`model_path = Model.get_model_path('diabetes_model')` followed by
`model = joblib.load(model_path)`, storing the result in the global.
`get_model_path` and `load` are the external SDK's registry lookup and
deserializer. -/
def init {V P : Type} (get_model_path : String → String)
    (load : String → SkModel V P) : EntryState V P :=
  { model := some (load (get_model_path "diabetes_model")) }

/-- A `run` call as dispatched by the platform after `init`: it uses the
model stored in the global state; with no loaded model it cannot produce
results. -/
def runHook {V P : Type} (st : EntryState V P) (showP : P → String)
    (readData : String → List V) (mini_batch : List String) : Option (List String) :=
  st.model.map (fun m => run m showP readData mini_batch)

/-! ## Batch-data generation ("Generate and upload batch data" cell) -/

/-- One row of the diabetes CSV: the eight feature columns and the
`Diabetic` label column, with scalar type `V`. -/
structure DiabetesRow (V : Type) where
  Pregnancies : V
  PlasmaGlucose : V
  DiastolicBloodPressure : V
  TricepsThickness : V
  SerumInsulin : V
  BMI : V
  DiabetesPedigree : V
  Age : V
  Diabetic : V
deriving Inhabited, DecidableEq

/-- The feature projection
`diabetes[['Pregnancies','PlasmaGlucose','DiastolicBloodPressure','TricepsThickness','SerumInsulin','BMI','DiabetesPedigree','Age']]`:
the eight feature values of a row, in column order, without `Diabetic`. -/
def featureValues {V : Type} (r : DiabetesRow V) : List V :=
  [r.Pregnancies, r.PlasmaGlucose, r.DiastolicBloodPressure, r.TricepsThickness,
   r.SerumInsulin, r.BMI, r.DiabetesPedigree, r.Age]

/-- `sample = diabetes[features].sample(n=100).values`: pandas `sample`
draws rows at random, so the drawn row indices `idxs` are a parameter;
the result is the list of feature-value rows at those indices. -/
def sampleFeatures {V : Type} [Inhabited V] (df : List (DiabetesRow V))
    (idxs : List Nat) : List (List V) :=
  idxs.map (fun i => featureValues (df.getD i default))

/-- `fname = str(i+1) + '.csv'` for loop index `i`. -/
def batchFileName (i : Nat) : String :=
  toString (i + 1) ++ ".csv"

/-- The file-writing loop `for i in range(100): sample[i].tofile(..., sep=",")`:
returns the written files as (name, contents) pairs, where `tofile` with
`sep=","` writes the row's values comma-separated, `showV` modelling
numpy's rendering of one value. -/
def writeBatchFiles {V : Type} (showV : V → String)
    (sample : List (List V)) : List (String × String) :=
  (List.range 100).map (fun i =>
    (batchFileName i, String.intercalate "," ((sample.getD i []).map showV)))

/-! ## The try/except steps (compute cluster, dataset registration) -/

/-- A message printed by one of the guarded notebook steps. -/
inductive StepMsg
  | foundExisting
  | caughtException (msg : String)
deriving DecidableEq

/-- Whether a printed message is a caught exception (as opposed to the
ordinary status print). -/
def StepMsg.isCaughtException : StepMsg → Bool
  | .caughtException _ => true
  | _ => false

/-- The external SDK calls of the "Create compute" cell:
`ComputeTarget(workspace=ws, name=cluster_name)` raises
`ComputeTargetException` when no such cluster exists (modelled as
`Except Unit`), and the creation path
(`provisioning_configuration` / `ComputeTarget.create` / `wait_for_completion`)
may raise with a message. `T` is the compute-target handle type. -/
structure ClusterEnv (T : Type) where
  lookupTarget : Except Unit T
  createTarget : Except String T

/-- The "Create compute" cell: try the lookup, printing
`Found existing cluster, use it.` on success; on `ComputeTargetException`
try to create, catching and printing any exception, in which case
`inference_cluster` is left unbound (`none`). Returns the bound
`inference_cluster` and the printed messages. -/
def provisionCluster {T : Type} (env : ClusterEnv T) : Option T × List StepMsg :=
  match env.lookupTarget with
  | .ok t => (some t, [.foundExisting])
  | .error _ =>
    match env.createTarget with
    | .ok t => (some t, [])
    | .error ex => (none, [.caughtException ex])

/-- The dataset-registration tail of the "Generate and upload batch data"
cell: `batch_data_set = Dataset.File.from_files(...)` followed by
`try: batch_data_set = batch_data_set.register(...) except Exception as ex: print(ex)`.
`register` is the SDK call; on failure the exception is printed and
`batch_data_set` keeps its previous (unregistered) value. `D` is the
dataset handle type. -/
def registerDataset {D : Type} (batch_data_set : D)
    (register : D → Except String D) : D × List StepMsg :=
  match register batch_data_set with
  | .ok d => (d, [])
  | .error ex => (batch_data_set, [.caughtException ex])

/-! ## Parsing the results file -/

/-- String splitting at a delimiter character, on the character list:
the field-splitting behaviour of `pd.read_csv(result_file, delimiter=":")`
on one line. -/
def splitOnChar (c : Char) : List Char → List (List Char)
  | [] => [[]]
  | a :: rest =>
      match splitOnChar c rest with
      | [] => [[a]]
      | x :: xs => if a = c then [] :: x :: xs else (a :: x) :: xs

/-- The fields of one line of `parallel_run_step.txt` as
`pd.read_csv(result_file, delimiter=":", header=None)` tokenizes it. -/
def parseResultLine (line : String) : List String :=
  (splitOnChar ':' line.data).map String.mk

/-- The column labels assigned by `df.columns = ["File", "Prediction"]`. -/
def resultColumns : List String := ["File", "Prediction"]

/-! ## REST invocation and polling -/

/-- A REST response, reduced to its JSON body: an object modelled as an
association list from keys to (rendered) values. -/
structure RestResponse where
  body : List (String × String)

/-- `response.json()[k]`, as a lookup: `some` value when the key is
present. -/
def jsonGet (r : RestResponse) (k : String) : Option String :=
  (r.body.find? (fun p => p.fst == k)).map Prod.snd

/-- The experiment name used by the notebook for the pipeline runs. -/
def experimentName : String := "mslearn-diabetes-batch"

/-- The REST call cell:
`response = requests.post(rest_endpoint, headers=auth_header, json={"ExperimentName": "mslearn-diabetes-batch"})`
followed by `run_id = response.json()["Id"]`. `post` is the HTTP layer,
taking the JSON payload; the result is the extracted run id when the
response body has an `Id` key. -/
def invokeRest (post : List (String × String) → RestResponse) : Option String :=
  jsonGet (post [("ExperimentName", experimentName)]) "Id"

/-- The handle `PipelineRun(ws.experiments['mslearn-diabetes-batch'], run_id)`. -/
structure PipelineRunRef where
  experiment : String
  runId : String
deriving DecidableEq

/-- The construction
`published_pipeline_run = PipelineRun(ws.experiments['mslearn-diabetes-batch'], run_id)`
applied to the run id extracted from the REST response. -/
def publishedPipelineRun (post : List (String × String) → RestResponse) :
    Option PipelineRunRef :=
  (invokeRest post).map (fun run_id =>
    { experiment := experimentName, runId := run_id })

/-- The REST call followed by
`published_pipeline_run.wait_for_completion(show_output=True)`:
`wait` is the SDK's blocking poll, applied to the constructed run handle. -/
def restAndPoll {S : Type} (post : List (String × String) → RestResponse)
    (wait : PipelineRunRef → S) : Option S :=
  (publishedPipelineRun post).map wait

/-! ## Top-level cell order -/

/-- The kinds of top-level SDK operations the notebook issues. -/
inductive SdkOp
  | connect
  | train
  | registerModel
  | uploadData
  | provisionCompute
  | definePipelineStep
  | runPipeline
  | publish
  | callRest
  | poll
  | downloadResults
deriving DecidableEq

/-- The position of an operation in the spec's claimed stage sequence
(connect, train, register, upload data, provision compute, define
pipeline step, run, publish, call REST endpoint, poll, download
results). -/
def stageIdx : SdkOp → Nat
  | .connect => 0
  | .train => 1
  | .registerModel => 2
  | .uploadData => 3
  | .provisionCompute => 4
  | .definePipelineStep => 5
  | .runPipeline => 6
  | .publish => 7
  | .callRest => 8
  | .poll => 9
  | .downloadResults => 10

/-- The SDK operations of each code cell of the notebook, in cell order:
cell 2 connects to the workspace; cell 4 trains and registers the model;
cell 6 uploads the batch data and registers the dataset; cell 8 provisions
the compute cluster; cells 10-18 define the parallel-run pipeline step;
cell 20 submits and waits for the pipeline run; cell 22 downloads the run's
output; cell 24 publishes the pipeline; cell 30 posts to the REST endpoint;
cell 32 polls the published run to completion; cell 34 downloads the
results again. -/
def cellOps : List (List SdkOp) :=
  [[.connect],
   [.train, .registerModel],
   [.uploadData],
   [.provisionCompute],
   [.definePipelineStep],
   [.runPipeline],
   [.downloadResults],
   [.publish],
   [.callRest],
   [.poll],
   [.downloadResults]]

/-- The notebook's top-level SDK call trace: the cells' operations in
execution order. -/
def notebookTrace : List SdkOp := cellOps.flatten

/-- Whether a trace is monotone in the claimed stage order: each call's
stage index is at most the next one's. -/
def stageMonotone : List SdkOp → Bool
  | [] => true
  | [_] => true
  | a :: b :: rest => decide (stageIdx a ≤ stageIdx b) && stageMonotone (b :: rest)

/-! ## Concrete test instances used by witnesses and counterexamples -/

/-- A concrete model for witnesses: predicts the number of values of
the row. -/
def mdl0 : SkModel Int Nat := ⟨List.length⟩

/-- A concrete file environment for witnesses: every file holds the two
values `1,2`. -/
def rd0 : String → List Int := fun _ => [1, 2]

/-- A concrete rendering of predictions for witnesses. -/
def showNat : Nat → String := toString

/-- A concrete cluster environment in which the cluster already exists:
the lookup succeeds with handle `7` (creation would also succeed). -/
def env0 : ClusterEnv Nat := ⟨Except.ok 7, Except.ok 7⟩

/-- A concrete dataset `register` call that raises because the dataset
already exists. -/
def reg0 : String → Except String String :=
  fun _ => Except.error "Dataset already registered."

/-- A concrete diabetes row for witnesses. -/
def row0 : DiabetesRow Int :=
  { Pregnancies := 1, PlasmaGlucose := 2, DiastolicBloodPressure := 3,
    TricepsThickness := 4, SerumInsulin := 5, BMI := 6,
    DiabetesPedigree := 7, Age := 8, Diabetic := 9 }

/-- A concrete HTTP layer for witnesses: every POST answers with a body
holding the run id under `Id`. -/
def post0 : List (String × String) → RestResponse :=
  fun _ => ⟨[("Id", "run-001")]⟩

/-- A concrete poll for witnesses: returns the run id it was asked to
wait on. -/
def wait0 : PipelineRunRef → String := fun r => r.runId

/-! ## Helper lemmas -/

/-- `resultString` in closed form: the mini-batch loop body produces the
basename, the `': '` separator, and the rendering of the model's
prediction on the file's values. -/
theorem resultString_eq {V P : Type} (m : SkModel V P) (showP : P → String)
    (readData : String → List V) (f : String) :
    resultString m showP readData f
      = basename f ++ ": " ++ showP (m.predictRow (readData f)) := by
  simp [resultString, SkModel.predict]

/-- `splitOnChar` never returns an empty field list. -/
theorem splitOnChar_ne_nil (c : Char) (s : List Char) : splitOnChar c s ≠ [] := by
  cases s with
  | nil => simp [splitOnChar]
  | cons a rest =>
    rw [splitOnChar]
    cases h : splitOnChar c rest with
    | nil => simp
    | cons x xs => by_cases hc : a = c <;> simp [hc]

/-- A delimiter-free character list is a single field. -/
theorem splitOnChar_of_not_mem {c : Char} {l : List Char} (h : c ∉ l) :
    splitOnChar c l = [l] := by
  induction l with
  | nil => rfl
  | cons a rest ih =>
    have ha : a ≠ c := fun e => h (e ▸ List.mem_cons_self a rest)
    have hr : c ∉ rest := fun e => h (List.mem_cons_of_mem a e)
    simp [splitOnChar, ih hr, ha]

/-- Splitting a list that starts with a delimiter-free prefix followed by
the delimiter: the prefix is the first field. -/
theorem splitOnChar_append_cons {c : Char} {l : List Char} (rest : List Char)
    (h : c ∉ l) :
    splitOnChar c (l ++ c :: rest) = l :: splitOnChar c rest := by
  induction l with
  | nil =>
    rw [List.nil_append, splitOnChar]
    cases hr : splitOnChar c rest with
    | nil => exact absurd hr (splitOnChar_ne_nil c rest)
    | cons x xs => simp
  | cons a l ih =>
    have ha : a ≠ c := fun e => h (e ▸ List.mem_cons_self a l)
    have hl : c ∉ l := fun e => h (List.mem_cons_of_mem a e)
    show splitOnChar c (a :: (l ++ c :: rest)) = (a :: l) :: splitOnChar c rest
    rw [splitOnChar, ih hl]
    simp [ha]

/-! ## Claim theorems -/

/-- C1: for every list `mini_batch` of file paths, `run` returns a list of
exactly the same length whose i-th element is the basename of the i-th
path, then `': '`, then the rendering of the first element of the model's
prediction array on the file's comma-delimited values reshaped into one
row; results are in input order, one string per file whatever the file's
value count. -/
theorem run_per_file_results {V P : Type} (m : SkModel V P) (showP : P → String)
    (readData : String → List V) (mini_batch : List String) :
    (run m showP readData mini_batch).length = mini_batch.length ∧
    ∀ (i : Nat) (f : String), mini_batch[i]? = some f →
      (m.predict [readData f]).head? = some (m.predictRow (readData f)) ∧
      (run m showP readData mini_batch)[i]?
        = some (basename f ++ ": " ++ showP (m.predictRow (readData f))) := by
  refine ⟨by simp [run], fun i f hf => ⟨by simp [SkModel.predict], ?_⟩⟩
  simp [run, List.getElem?_map, hf, resultString_eq]

/-- Witness for C1 at the concrete batch `["a/1.csv"]`. -/
theorem run_per_file_results_witness :
    (mdl0.predict [rd0 "a/1.csv"]).head? = some (mdl0.predictRow (rd0 "a/1.csv")) ∧
    (run mdl0 showNat rd0 ["a/1.csv"])[0]?
      = some (basename "a/1.csv" ++ ": " ++ showNat (mdl0.predictRow (rd0 "a/1.csv"))) :=
  (run_per_file_results mdl0 showNat rd0 ["a/1.csv"]).2 0 "a/1.csv" rfl

/-- C8: on the empty mini-batch, `run` returns the empty list, and the
instrumented loop records no file reads and no `model.predict` calls
(the loop body never executes, so no error can arise). -/
theorem run_empty_batch {V P : Type} (m : SkModel V P) (showP : P → String)
    (readData : String → List V) :
    run m showP readData [] = [] ∧
    runTrace m showP readData [] = ⟨[], [], 0⟩ :=
  ⟨rfl, rfl⟩

/-- C9: the result labels use only the basename of the input path: two
paths with equal basenames whose data yield the same prediction produce
identical result strings, whatever directories they lie in. -/
theorem basename_only_labels {V P : Type} (m : SkModel V P) (showP : P → String)
    (readData : String → List V) (f1 f2 : String)
    (hbase : basename f1 = basename f2)
    (hpred : m.predictRow (readData f1) = m.predictRow (readData f2)) :
    resultString m showP readData f1 = resultString m showP readData f2 ∧
    run m showP readData [f1] = run m showP readData [f2] := by
  have h : resultString m showP readData f1 = resultString m showP readData f2 := by
    rw [resultString_eq, resultString_eq, hbase, hpred]
  exact ⟨h, by simp [run, h]⟩

/-- Witness for C9: the same file name under two different directories. -/
theorem basename_only_labels_witness :
    resultString mdl0 showNat rd0 "dirA/1.csv" = resultString mdl0 showNat rd0 "dirB/1.csv" ∧
    run mdl0 showNat rd0 ["dirA/1.csv"] = run mdl0 showNat rd0 ["dirB/1.csv"] :=
  basename_only_labels mdl0 showNat rd0 "dirA/1.csv" "dirB/1.csv" (by decide) rfl

/-- C4: `init` stores the model loaded from the registry path of
`'diabetes_model'` in the global state, and every subsequent `run`
dispatch uses exactly that model. -/
theorem init_loads_registered_model {V P : Type} (get_model_path : String → String)
    (load : String → SkModel V P) (showP : P → String) (readData : String → List V) :
    (init get_model_path load).model = some (load (get_model_path "diabetes_model")) ∧
    ∀ mini_batch, runHook (init get_model_path load) showP readData mini_batch
      = some (run (load (get_model_path "diabetes_model")) showP readData mini_batch) :=
  ⟨rfl, fun _ => rfl⟩

/-- C2 counterexample: in `env0` the compute cluster already exists, yet
the step raises no exception at all — the lookup succeeds, the existing
target is bound, and the only printed message is the ordinary
`Found existing cluster, use it.` status line, not a caught exception; so
the claim that "the exception raised by the corresponding SDK call is
caught and printed" is false for the cluster case. -/
theorem cluster_exists_no_exception_printed :
    (provisionCluster env0).1 = some 7 ∧
    (provisionCluster env0).2.any StepMsg.isCaughtException = false := by decide

/-- C2 (amended): when the registered batch dataset already exists and
`register` raises, the exception is caught and printed and
`batch_data_set` keeps its unregistered value; when the compute cluster
already exists, the lookup succeeds without raising, the existing target
is bound to `inference_cluster`, and only the status line is printed. In
both steps no exception propagates (both step functions are total). -/
theorem resource_exists_handling {T D : Type} (env : ClusterEnv T) (t : T)
    (hlook : env.lookupTarget = Except.ok t)
    (ds : D) (register : D → Except String D) (ex : String)
    (hreg : register ds = Except.error ex) :
    provisionCluster env = (some t, [StepMsg.foundExisting]) ∧
    registerDataset ds register = (ds, [StepMsg.caughtException ex]) := by
  constructor
  · simp [provisionCluster, hlook]
  · simp [registerDataset, hreg]

/-- Witness for C2 (amended) at a concrete environment. -/
theorem resource_exists_handling_witness :
    provisionCluster env0 = (some 7, [StepMsg.foundExisting]) ∧
    registerDataset "batch-data" reg0
      = ("batch-data", [StepMsg.caughtException "Dataset already registered."]) :=
  resource_exists_handling env0 7 rfl "batch-data" reg0 "Dataset already registered." rfl

/-- C3 counterexample: a result line produced by `run` whose basename
contains a colon splits into three fields, not two, under the `':'`
delimiter, so the claimed format/parse round-trip fails as stated. -/
theorem parse_result_line_counterexample :
    (parseResultLine ((run mdl0 showNat rd0 ["b:c.csv"]).headD "")).length ≠ 2 := by decide

/-- C3 (amended): for every result line of `run` whose basename and
rendered prediction contain no colon, tokenizing the line at the `':'`
delimiter yields exactly two fields — as many as the assigned column
labels `File` and `Prediction` — of which the first is exactly the
basename, and the second is the prediction preceded by the single space
of the `': '` separator (so the prediction is recovered after stripping
that leading space, as the numeric parser does). -/
theorem parse_result_lines_roundtrip {V P : Type} (m : SkModel V P) (showP : P → String)
    (readData : String → List V) (mini_batch : List String) (i : Nat) (f : String)
    (hf : mini_batch[i]? = some f)
    (hb : ':' ∉ (basename f).data)
    (hp : ':' ∉ (showP (m.predictRow (readData f))).data) :
    (run m showP readData mini_batch)[i]? = some (resultString m showP readData f) ∧
    (parseResultLine (resultString m showP readData f)).length = resultColumns.length ∧
    (parseResultLine (resultString m showP readData f))[0]? = some (basename f) ∧
    (parseResultLine (resultString m showP readData f))[1]?
      = some (String.mk (' ' :: (showP (m.predictRow (readData f))).data)) := by
  have hsep : (": ").data = [':', ' '] := rfl
  have hdata : (resultString m showP readData f).data
      = (basename f).data ++ ':' :: ' ' :: (showP (m.predictRow (readData f))).data := by
    simp [resultString_eq, String.data_append, hsep, List.append_assoc]
  have hnm : ':' ∉ ' ' :: (showP (m.predictRow (readData f))).data := by
    intro hmem
    rcases List.mem_cons.mp hmem with h | h
    · exact absurd h (by decide)
    · exact hp h
  have hsplit : splitOnChar ':' (resultString m showP readData f).data
      = [(basename f).data, ' ' :: (showP (m.predictRow (readData f))).data] := by
    rw [hdata, splitOnChar_append_cons _ hb, splitOnChar_of_not_mem hnm]
  refine ⟨by simp [run, List.getElem?_map, hf], ?_, ?_, ?_⟩
  · simp [parseResultLine, hsplit, resultColumns]
  · simp [parseResultLine, hsplit]
  · simp [parseResultLine, hsplit]

/-- Witness for C3 (amended) at the concrete batch `["dir/1.csv"]`. -/
theorem parse_result_lines_roundtrip_witness :
    (run mdl0 showNat rd0 ["dir/1.csv"])[0]? = some (resultString mdl0 showNat rd0 "dir/1.csv") ∧
    (parseResultLine (resultString mdl0 showNat rd0 "dir/1.csv")).length = resultColumns.length ∧
    (parseResultLine (resultString mdl0 showNat rd0 "dir/1.csv"))[0]? = some (basename "dir/1.csv") ∧
    (parseResultLine (resultString mdl0 showNat rd0 "dir/1.csv"))[1]?
      = some (String.mk (' ' :: (showNat (mdl0.predictRow (rd0 "dir/1.csv"))).data)) :=
  parse_result_lines_roundtrip mdl0 showNat rd0 ["dir/1.csv"] 0 "dir/1.csv"
    rfl (by decide) (by decide)

/-- C5: with the 100 sampled row indices of `sample(n=100)`, the
generation loop writes exactly 100 files, named `1.csv` … `100.csv` with
no collisions, the i-th file holding the comma-separated feature values
of the i-th sampled row; a feature row has exactly the eight feature
values and never depends on the `Diabetic` label. -/
theorem batch_files_spec {V : Type} [Inhabited V] (showV : V → String)
    (df : List (DiabetesRow V)) (idxs : List Nat) (h100 : idxs.length = 100) :
    (writeBatchFiles showV (sampleFeatures df idxs)).length = 100 ∧
    (writeBatchFiles showV (sampleFeatures df idxs)).map Prod.fst
      = (List.range 100).map batchFileName ∧
    ((writeBatchFiles showV (sampleFeatures df idxs)).map Prod.fst).Nodup ∧
    (∀ i : Nat, i < 100 →
      (writeBatchFiles showV (sampleFeatures df idxs))[i]? =
        some (batchFileName i,
          String.intercalate ","
            ((featureValues (df.getD (idxs.getD i 0) default)).map showV))) ∧
    (∀ r : DiabetesRow V, (featureValues r).length = 8) ∧
    (∀ (r : DiabetesRow V) (v : V),
      featureValues { r with Diabetic := v } = featureValues r) := by
  have hnames : (writeBatchFiles showV (sampleFeatures df idxs)).map Prod.fst
      = (List.range 100).map batchFileName := by
    simp [writeBatchFiles, List.map_map, Function.comp]
  refine ⟨by simp [writeBatchFiles], hnames, ?_, ?_, fun r => rfl, fun r v => rfl⟩
  · rw [hnames]
    decide
  · intro i hi
    have hlen : i < idxs.length := h100 ▸ hi
    have hsample : (sampleFeatures df idxs).getD i []
        = featureValues (df.getD (idxs.getD i 0) default) := by
      simp [sampleFeatures, List.getD_eq_getElem?_getD, List.getElem?_map,
        List.getElem?_eq_getElem hlen]
    rw [writeBatchFiles, List.getElem?_map, List.getElem?_range hi]
    simp only [Option.map_some']
    rw [hsample]

/-- Witness for C5 with 100 sampled indices over a one-row dataset. -/
theorem batch_files_spec_witness :
    (writeBatchFiles (fun v : Int => toString v)
      (sampleFeatures [row0] (List.replicate 100 0))).length = 100 :=
  (batch_files_spec (fun v : Int => toString v) [row0] (List.replicate 100 0)
    (by simp)).1

/-- C10: two datasets that agree row-by-row except in the `Diabetic`
label column produce, for the same sampled row indices, exactly the same
batch files: the label never influences the generated batch data. -/
theorem label_noninterference {V : Type} [Inhabited V] (showV : V → String)
    (df1 df2 : List (DiabetesRow V)) (idxs : List Nat)
    (hlen : df1.length = df2.length)
    (hrow : ∀ i : Nat, i < df1.length →
      df2.getD i default
        = { df1.getD i default with Diabetic := (df2.getD i default).Diabetic }) :
    writeBatchFiles showV (sampleFeatures df1 idxs)
      = writeBatchFiles showV (sampleFeatures df2 idxs) := by
  have hsample : sampleFeatures df1 idxs = sampleFeatures df2 idxs := by
    unfold sampleFeatures
    refine List.map_congr_left (fun i _ => ?_)
    by_cases hi : i < df1.length
    · rw [hrow i hi]; rfl
    · have h1 : df1.getD i default = default :=
        List.getD_eq_default _ _ (Nat.le_of_not_lt hi)
      have h2 : df2.getD i default = default :=
        List.getD_eq_default _ _ (hlen ▸ Nat.le_of_not_lt hi)
      rw [h1, h2]
  rw [hsample]

/-- Witness for C10: one-row datasets differing only in the label. -/
theorem label_noninterference_witness :
    writeBatchFiles (fun v : Int => toString v)
      (sampleFeatures [row0] (List.replicate 100 0))
      = writeBatchFiles (fun v : Int => toString v)
      (sampleFeatures [{ row0 with Diabetic := 0 }] (List.replicate 100 0)) :=
  label_noninterference (fun v : Int => toString v) [row0]
    [{ row0 with Diabetic := 0 }] (List.replicate 100 0) rfl (by decide)

/-- C6: when the POSTed payload carrying the experiment name receives a
response whose JSON body has the run identifier under `Id`, the notebook
extracts exactly that identifier, constructs the `PipelineRun` handle
from it, and that is the handle it polls to completion. -/
theorem rest_run_id_used {S : Type} (post : List (String × String) → RestResponse)
    (rid : String)
    (h : jsonGet (post [("ExperimentName", experimentName)]) "Id" = some rid)
    (wait : PipelineRunRef → S) :
    publishedPipelineRun post = some { experiment := experimentName, runId := rid } ∧
    restAndPoll post wait = some (wait { experiment := experimentName, runId := rid }) := by
  constructor
  · simp [publishedPipelineRun, invokeRest, h]
  · simp [restAndPoll, publishedPipelineRun, invokeRest, h]

/-- Witness for C6 at a concrete HTTP layer answering `Id ↦ run-001`. -/
theorem rest_run_id_used_witness :
    publishedPipelineRun post0 = some { experiment := experimentName, runId := "run-001" } ∧
    restAndPoll post0 wait0
      = some (wait0 { experiment := experimentName, runId := "run-001" }) :=
  rest_run_id_used post0 "run-001" rfl wait0

/-- C7 counterexample: the notebook issues a download-results call (the
trace's 8th operation) before the publish call (its 9th operation),
although download results is the last stage of the claimed order and
publish an earlier one; hence the trace is not stage-monotone. -/
theorem notebook_order_counterexample :
    notebookTrace[7]? = some SdkOp.downloadResults ∧
    notebookTrace[8]? = some SdkOp.publish ∧
    stageIdx SdkOp.publish < stageIdx SdkOp.downloadResults ∧
    stageMonotone notebookTrace = false := by decide

/-- C7 (amended): the top-level SDK calls execute in the order connect,
train, register model, upload data, provision compute, define pipeline
step, run pipeline, download results, publish, call REST, poll, download
results — the claimed sequence except that the results are additionally
downloaded once immediately after the pipeline run, before publishing;
with that early download removed the trace is stage-monotone. -/
theorem notebook_order_amended :
    notebookTrace =
      [SdkOp.connect, SdkOp.train, SdkOp.registerModel, SdkOp.uploadData,
       SdkOp.provisionCompute, SdkOp.definePipelineStep, SdkOp.runPipeline,
       SdkOp.downloadResults, SdkOp.publish, SdkOp.callRest, SdkOp.poll,
       SdkOp.downloadResults] ∧
    stageMonotone (notebookTrace.eraseIdx 7) = true := by decide

end BatchInference
